import Mathlib

/-!
Shallow embedding of the ReopenFiles plugin (`src/plugin.py`).

The plugin tracks view state (selection and scroll position) per window:
on `on_pre_close` it freezes the closing view's selection and viewport
into a mapping `rf_store` kept in the window's settings, keyed by the
view's file name; on `on_load_async` it restores that state, provided the
freshly loaded view is still in its default origin state.

Modelling decisions:
  * A Sublime `Region` is a pair of integer offsets `a`, `b`.
  * The viewport position is a pair of scroll offsets; the Python code
    only ever compares them for equality and copies them around, so we
    model them as rationals, which represent every concrete value the
    host hands over and have decidable equality.
  * The `rf_store` mapping is a Python `dict`; we model it as an
    association list where assignment replaces the binding in place when
    the key is present and appends otherwise, exactly the observable
    behaviour of `dict.__setitem__` with respect to iteration order.
  * `view.file_name()` returns an optional string; the code guards with
    `if not file_name`, which treats both `None` and the empty string as
    absent, and we translate that falsiness test faithfully.
  * Each handler is a function from the pre-state `(view, store)` to the
    post-state `(view, store)`: mutation of the view (`sel().clear()`,
    `sel().add_all(...)`, `set_viewport_position(...)`) becomes a
    functional update of the view record, and
    `window.settings().set("rf_store", store)` becomes the returned
    store. The `@ensure_window` decorator, which drops the event when
    the view has no window, is modelled as a wrapper combinator.
-/

/-- A Sublime text region: anchor `a` and active point `b`. -/
structure Region where
  a : Int
  b : Int
deriving DecidableEq, Repr

/-- The frozen view state stored per file: `sel` is the list of
`(anchor, active)` pairs, `viewport` the scroll offset pair. -/
structure ViewState where
  sel : List (Int × Int)
  viewport : ℚ × ℚ
deriving DecidableEq, Repr

/-- The `rf_store` mapping from file names to frozen view states,
an insertion-ordered dictionary. -/
abbrev Store := List (String × ViewState)

/-- Dictionary lookup: `store[file_name]`, `none` on a `KeyError`. -/
def Store.lookup : Store → String → Option ViewState
  | [], _ => none
  | (k, v) :: rest, key => if k = key then some v else Store.lookup rest key

/-- Dictionary assignment `store[file_name] = state`: replace the binding
in place when the key is present, append otherwise. -/
def Store.insert : Store → String → ViewState → Store
  | [], key, st => [(key, st)]
  | (k, v) :: rest, key, st =>
      if k = key then (key, st) :: rest else (k, v) :: Store.insert rest key st

/-- A Sublime view as the handlers observe it: whether `view.window()` is
non-null, the `is_scratch` flag, the optional file name, the current
selection as a list of regions, and the current viewport position. -/
structure View where
  has_window : Bool
  is_scratch : Bool
  file_name : Option String
  sel : List Region
  viewport_position : ℚ × ℚ
deriving DecidableEq, Repr

/-- `freeze_sel(view)`: the view's selection as `(a, b)` pairs. -/
def freeze_sel (view : View) : List (Int × Int) :=
  view.sel.map fun s => (s.a, s.b)

/-- `unfreeze_sel(sel)`: rebuild `Region` objects from frozen pairs. -/
def unfreeze_sel (sel : List (Int × Int)) : List Region :=
  sel.map fun p => Region.mk p.1 p.2

/-- The Python truthiness test `if not file_name` used by both handlers:
true when the name is `None` or the empty string. -/
def falsy_name : Option String → Bool
  | none => true
  | some s => s.isEmpty

/-- The `@ensure_window` decorator: when the view has no window the event
is dropped and the state is untouched; otherwise the wrapped handler runs. -/
def ensure_window (handler : View → Store → View × Store)
    (view : View) (store : Store) : View × Store :=
  if view.has_window = false then (view, store) else handler view store

/-- Handler `on_pre_close`: skip scratch views and views without a file
name (a `None` or empty name is falsy); otherwise freeze the selection and
viewport and write them into the store under the file name. The view
itself is only read, never written. -/
def on_pre_close : View → Store → View × Store :=
  ensure_window fun view store =>
    if view.is_scratch = true then (view, store)
    else
      match view.file_name with
      | none => (view, store)
      | some file_name =>
          if file_name.isEmpty = true then (view, store)
          else
            (view, Store.insert store file_name
              (ViewState.mk (freeze_sel view) view.viewport_position))

/-- Handler `on_load_async`: skip scratch views; skip when the viewport or
the cursor has already been moved away from the origin; skip when there is
no file name or no stored entry; otherwise clear the selection, add the
unfrozen stored regions, and set the stored viewport position. The store
is only read, never written. -/
def on_load_async : View → Store → View × Store :=
  ensure_window fun view store =>
    if view.is_scratch = true then (view, store)
    else if view.viewport_position ≠ ((0 : ℚ), (0 : ℚ))
        ∨ freeze_sel view ≠ [((0 : Int), (0 : Int))] then (view, store)
    else
      match view.file_name with
      | none => (view, store)
      | some file_name =>
          if file_name.isEmpty = true then (view, store)
          else
            match Store.lookup store file_name with
            | none => (view, store)
            | some state =>
                ({ view with
                    sel := unfreeze_sel state.sel,
                    viewport_position := state.viewport }, store)

/-! Concrete sample data, used to instantiate the universally quantified
theorems below at specific inputs. -/

/-- A sample frozen state: one selection at offset 5, scrolled to 120. -/
def aState : ViewState := ViewState.mk [(5, 5)] (0, 120)

/-- A second sample frozen state for a different file. -/
def bState : ViewState := ViewState.mk [(7, 9)] (3, 4)

/-- A store holding a single entry for `/a.txt`. -/
def aStore : Store := [("/a.txt", aState)]

/-- A store holding a single entry for `/b.txt`. -/
def bStore : Store := [("/b.txt", bState)]

/-- A freshly loaded view of `/a.txt` still at the origin state. -/
def originView : View :=
  View.mk true false (some "/a.txt") [Region.mk 0 0] (0, 0)

/-- A view of `/a.txt` whose viewport has been scrolled away from the
origin. -/
def movedView : View :=
  View.mk true false (some "/a.txt") [Region.mk 5 5] (0, 120)

/-- A view of `/a.txt` that is no longer attached to a window. -/
def detachedView : View :=
  View.mk false false (some "/a.txt") [Region.mk 5 5] (0, 120)

/-! Helper lemmas about the dictionary operations and the freeze/unfreeze
round trip. -/

theorem lookup_insert_self (s : Store) (k : String) (st : ViewState) :
    Store.lookup (Store.insert s k st) k = some st := by
  induction s with
  | nil => simp [Store.insert, Store.lookup]
  | cons hd tl ih =>
      obtain ⟨k₀, v₀⟩ := hd
      by_cases h : k₀ = k
      · simp [Store.insert, Store.lookup, h]
      · simp [Store.insert, Store.lookup, h, ih]

theorem lookup_insert_ne (s : Store) (k k' : String) (st : ViewState)
    (h : k' ≠ k) :
    Store.lookup (Store.insert s k st) k' = Store.lookup s k' := by
  induction s with
  | nil => simp [Store.insert, Store.lookup, Ne.symm h]
  | cons hd tl ih =>
      obtain ⟨k₀, v₀⟩ := hd
      by_cases h₀ : k₀ = k
      · subst h₀
        simp [Store.insert, Store.lookup, Ne.symm h]
      · simp [Store.insert, Store.lookup, h₀, ih]

theorem insert_insert_same (s : Store) (k : String) (st : ViewState) :
    Store.insert (Store.insert s k st) k st = Store.insert s k st := by
  induction s with
  | nil => simp [Store.insert]
  | cons hd tl ih =>
      obtain ⟨k₀, v₀⟩ := hd
      by_cases h : k₀ = k
      · simp [Store.insert, h]
      · simp [Store.insert, h, ih]

theorem freeze_unfreeze (l : List (Int × Int)) :
    (unfreeze_sel l).map (fun s => (s.a, s.b)) = l := by
  induction l with
  | nil => rfl
  | cons hd tl ih => simpa [unfreeze_sel] using ih

theorem unfreeze_length (l : List (Int × Int)) :
    (unfreeze_sel l).length = l.length := by
  simp [unfreeze_sel]

theorem freeze_length (v : View) :
    (freeze_sel v).length = v.sel.length := by
  simp [freeze_sel]

/-! Characterizations of the two handlers. -/

theorem on_pre_close_view (v : View) (s : Store) : (on_pre_close v s).1 = v := by
  simp only [on_pre_close, ensure_window]
  repeat' split
  all_goals rfl

theorem on_load_async_store (v : View) (s : Store) :
    (on_load_async v s).2 = s := by
  simp only [on_load_async, ensure_window]
  repeat' split
  all_goals rfl

theorem pre_close_dichotomy (v : View) :
    (∀ s, on_pre_close v s = (v, s)) ∨
    (∃ fn, v.file_name = some fn ∧ fn.isEmpty = false ∧
      ∀ s, on_pre_close v s =
        (v, Store.insert s fn
          (ViewState.mk (freeze_sel v) v.viewport_position))) := by
  by_cases h1 : v.has_window = false
  · left; intro s; simp [on_pre_close, ensure_window, h1]
  · by_cases h2 : v.is_scratch = true
    · left; intro s; simp [on_pre_close, ensure_window, h1, h2]
    · rcases hfn : v.file_name with _ | fn
      · left; intro s; simp [on_pre_close, ensure_window, h1, h2, hfn]
      · by_cases h3 : fn.isEmpty = true
        · left; intro s; simp [on_pre_close, ensure_window, h1, h2, hfn, h3]
        · right
          refine ⟨fn, rfl, by simpa using h3, fun s => ?_⟩
          simp [on_pre_close, ensure_window, h1, h2, hfn, h3]

theorem load_skip_origin (v : View) (s : Store)
    (h : v.viewport_position ≠ ((0 : ℚ), (0 : ℚ))
      ∨ freeze_sel v ≠ [((0 : Int), (0 : Int))]) :
    on_load_async v s = (v, s) := by
  simp only [on_load_async, ensure_window]
  by_cases h1 : v.has_window = false
  · rw [if_pos h1]
  · rw [if_neg h1]
    by_cases h2 : v.is_scratch = true
    · rw [if_pos h2]
    · rw [if_neg h2, if_pos h]

theorem load_run (v : View) (s : Store) (fn : String) (st : ViewState)
    (hw : v.has_window = true) (hsc : v.is_scratch = false)
    (hvp : v.viewport_position = ((0 : ℚ), (0 : ℚ)))
    (hsel : freeze_sel v = [((0 : Int), (0 : Int))])
    (hfn : v.file_name = some fn) (hne : fn.isEmpty = false)
    (hst : Store.lookup s fn = some st) :
    on_load_async v s =
      ({ v with
          sel := unfreeze_sel st.sel,
          viewport_position := st.viewport }, s) := by
  simp only [on_load_async, ensure_window]
  rw [if_neg (by simp [hw]), if_neg (by simp [hsc]),
    if_neg (by simp [hvp, hsel]), hfn]
  simp only [hne, hst, Bool.false_eq_true, if_false]

theorem load_dichotomy (v : View) (s : Store) :
    on_load_async v s = (v, s) ∨
    ∃ fn st, v.has_window = true ∧ v.is_scratch = false ∧
      v.viewport_position = ((0 : ℚ), (0 : ℚ)) ∧
      freeze_sel v = [((0 : Int), (0 : Int))] ∧
      v.file_name = some fn ∧ fn.isEmpty = false ∧
      Store.lookup s fn = some st ∧
      on_load_async v s =
        ({ v with
            sel := unfreeze_sel st.sel,
            viewport_position := st.viewport }, s) := by
  by_cases h1 : v.has_window = false
  · left; simp [on_load_async, ensure_window, h1]
  · by_cases h2 : v.is_scratch = true
    · left; simp [on_load_async, ensure_window, h1, h2]
    · by_cases h3 : v.viewport_position ≠ ((0 : ℚ), (0 : ℚ))
          ∨ freeze_sel v ≠ [((0 : Int), (0 : Int))]
      · left; exact load_skip_origin v s h3
      · push_neg at h3
        rcases hfn : v.file_name with _ | fn
        · left; simp [on_load_async, ensure_window, h1, h2, h3.1, h3.2, hfn]
        · by_cases h4 : fn.isEmpty = true
          · left
            simp [on_load_async, ensure_window, h1, h2, h3.1, h3.2, hfn, h4]
          · rcases hst : Store.lookup s fn with _ | st
            · left
              simp [on_load_async, ensure_window, h1, h2, h3.1, h3.2, hfn,
                h4, hst]
            · right
              refine ⟨fn, st, by simpa using h1, by simpa using h2,
                h3.1, h3.2, rfl, by simpa using h4, hst, ?_⟩
              rw [show some fn = v.file_name from hfn.symm]
              exact load_run v s fn st (by simpa using h1) (by simpa using h2)
                h3.1 h3.2 hfn (by simpa using h4) hst

/-! Claim theorems. -/

/-- C1: a view loaded with a window, not scratch, at viewport `(0, 0)` and
with frozen selection exactly `[(0, 0)]`, whose file name has a stored
entry, ends with its selection equal to exactly the stored selection (the
prior selection cleared and replaced) and its viewport equal to the stored
viewport. -/
theorem restore_applies_stored_state (v : View) (s : Store) (fn : String)
    (st : ViewState) (hw : v.has_window = true) (hsc : v.is_scratch = false)
    (hvp : v.viewport_position = ((0 : ℚ), (0 : ℚ)))
    (hsel : freeze_sel v = [((0 : Int), (0 : Int))])
    (hfn : v.file_name = some fn) (hne : fn.isEmpty = false)
    (hst : Store.lookup s fn = some st) :
    (on_load_async v s).1.sel = unfreeze_sel st.sel ∧
    freeze_sel (on_load_async v s).1 = st.sel ∧
    (on_load_async v s).1.viewport_position = st.viewport := by
  rw [load_run v s fn st hw hsc hvp hsel hfn hne hst]
  exact ⟨rfl, freeze_unfreeze st.sel, rfl⟩

/-- Witness for C1 at the origin view of `/a.txt` and the store holding
`aState` for it. -/
theorem restore_applies_stored_state_witness :
    (on_load_async originView aStore).1.sel = unfreeze_sel aState.sel ∧
    freeze_sel (on_load_async originView aStore).1 = aState.sel ∧
    (on_load_async originView aStore).1.viewport_position = aState.viewport :=
  restore_applies_stored_state originView aStore "/a.txt" aState
    rfl rfl rfl rfl rfl rfl (by decide)

/-- C2: closing a view with a window, a non-empty file name and no scratch
flag leaves the store with an entry for that file name holding the view's
frozen selection and current viewport, whatever the prior store was. -/
theorem pre_close_stores_entry (v : View) (s : Store) (fn : String)
    (hw : v.has_window = true) (hsc : v.is_scratch = false)
    (hfn : v.file_name = some fn) (hne : fn.isEmpty = false) :
    Store.lookup (on_pre_close v s).2 fn =
      some (ViewState.mk (freeze_sel v) v.viewport_position) := by
  have h : (on_pre_close v s).2 =
      Store.insert s fn (ViewState.mk (freeze_sel v) v.viewport_position) := by
    simp [on_pre_close, ensure_window, hw, hsc, hfn, hne]
  rw [h, lookup_insert_self]

/-- Witness for C2: closing the moved view of `/a.txt` over an empty store
and over a store with a prior entry both store its current state. -/
theorem pre_close_stores_entry_witness :
    Store.lookup (on_pre_close movedView aStore).2 "/a.txt" =
      some (ViewState.mk (freeze_sel movedView) movedView.viewport_position) :=
  pre_close_stores_entry movedView aStore "/a.txt" rfl rfl rfl rfl

/-- C3: a loaded view whose viewport is away from `(0, 0)` or whose frozen
selection differs from `[(0, 0)]` keeps its selection and viewport, even
when the store has an entry for its file name. -/
theorem load_skips_moved_view (v : View) (s : Store)
    (h : v.viewport_position ≠ ((0 : ℚ), (0 : ℚ))
      ∨ freeze_sel v ≠ [((0 : Int), (0 : Int))]) :
    (on_load_async v s).1.sel = v.sel ∧
    (on_load_async v s).1.viewport_position = v.viewport_position := by
  rw [load_skip_origin v s h]
  exact ⟨rfl, rfl⟩

/-- Witness for C3 at the scrolled view of `/a.txt` with a stored entry
present for `/a.txt`. -/
theorem load_skips_moved_view_witness :
    (on_load_async movedView aStore).1.sel = movedView.sel ∧
    (on_load_async movedView aStore).1.viewport_position =
      movedView.viewport_position :=
  load_skips_moved_view movedView aStore (Or.inl (by decide))

/-- C4: closing a view with no window, or marked scratch, or without a
(truthy) file name changes nothing: the handler returns the view and the
store untouched. -/
theorem pre_close_skips_invalid_view (v : View) (s : Store)
    (h : v.has_window = false ∨ v.is_scratch = true
      ∨ falsy_name v.file_name = true) :
    on_pre_close v s = (v, s) := by
  by_cases h1 : v.has_window = false
  · simp [on_pre_close, ensure_window, h1]
  · by_cases h2 : v.is_scratch = true
    · simp [on_pre_close, ensure_window, h1, h2]
    · rcases hfn : v.file_name with _ | fn
      · simp [on_pre_close, ensure_window, h1, h2, hfn]
      · have h3 : fn.isEmpty = true := by
          rcases h with h | h | h
          · exact absurd h h1
          · exact absurd h h2
          · simpa [falsy_name, hfn] using h
        simp [on_pre_close, ensure_window, h1, h2, hfn, h3]

/-- Witness for C4 at the detached view of `/a.txt` over the store with a
prior entry. -/
theorem pre_close_skips_invalid_view_witness :
    on_pre_close detachedView aStore = (detachedView, aStore) :=
  pre_close_skips_invalid_view detachedView aStore (Or.inl rfl)

/-- C5: loading a view at the origin state whose file name has no stored
entry leaves the view untouched, with selection and viewport still at the
origin values. -/
theorem load_miss_leaves_view (v : View) (s : Store) (fn : String)
    (hvp : v.viewport_position = ((0 : ℚ), (0 : ℚ)))
    (hsel : freeze_sel v = [((0 : Int), (0 : Int))])
    (hfn : v.file_name = some fn) (hne : fn.isEmpty = false)
    (hst : Store.lookup s fn = none) :
    (on_load_async v s).1 = v ∧
    (on_load_async v s).1.viewport_position = ((0 : ℚ), (0 : ℚ)) ∧
    freeze_sel (on_load_async v s).1 = [((0 : Int), (0 : Int))] := by
  have hnoop : on_load_async v s = (v, s) := by
    by_cases h1 : v.has_window = false
    · simp [on_load_async, ensure_window, h1]
    · by_cases h2 : v.is_scratch = true
      · simp [on_load_async, ensure_window, h1, h2]
      · simp only [on_load_async, ensure_window]
        rw [if_neg h1, if_neg h2, if_neg (by simp [hvp, hsel]), hfn]
        simp [hne, hst]
  rw [hnoop]
  exact ⟨rfl, hvp, hsel⟩

/-- Witness for C5 at the origin view of `/a.txt` over the empty store. -/
theorem load_miss_leaves_view_witness :
    (on_load_async originView []).1 = originView ∧
    (on_load_async originView []).1.viewport_position = ((0 : ℚ), (0 : ℚ)) ∧
    freeze_sel (on_load_async originView []).1 = [((0 : Int), (0 : Int))] :=
  load_miss_leaves_view originView [] "/a.txt" rfl rfl rfl rfl rfl

/-- C6: no handler ever removes a store entry: a key present before
`on_pre_close` is present after it, entries for paths other than the
closed view's file name are unchanged, and `on_load_async` leaves every
entry unchanged. -/
theorem store_entries_never_removed (v : View) (s : Store) (k : String) :
    (Store.lookup s k ≠ none → Store.lookup (on_pre_close v s).2 k ≠ none) ∧
    (v.file_name ≠ some k →
      Store.lookup (on_pre_close v s).2 k = Store.lookup s k) ∧
    Store.lookup (on_load_async v s).2 k = Store.lookup s k := by
  refine ⟨?_, ?_, by rw [on_load_async_store]⟩
  · intro hk
    rcases pre_close_dichotomy v with h | ⟨fn, hfn, hne, h⟩
    · rw [h s]
      exact hk
    · rw [h s]
      by_cases hkfn : k = fn
      · subst hkfn
        rw [lookup_insert_self]
        simp
      · rw [lookup_insert_ne s fn k _ hkfn]
        exact hk
  · intro hkv
    rcases pre_close_dichotomy v with h | ⟨fn, hfn, hne, h⟩
    · rw [h s]
    · rw [h s]
      have hk : k ≠ fn := by
        rintro rfl
        exact hkv hfn
      exact lookup_insert_ne s fn k _ hk

/-- Witness for C6: closing the view of `/a.txt` over the store holding an
entry for `/b.txt` keeps that entry intact. -/
theorem store_entries_never_removed_witness :
    Store.lookup (on_pre_close movedView bStore).2 "/b.txt" ≠ none ∧
    Store.lookup (on_pre_close movedView bStore).2 "/b.txt" =
      Store.lookup bStore "/b.txt" ∧
    Store.lookup (on_load_async movedView bStore).2 "/b.txt" =
      Store.lookup bStore "/b.txt" :=
  ⟨(store_entries_never_removed movedView bStore "/b.txt").1 (by decide),
   (store_entries_never_removed movedView bStore "/b.txt").2.1 (by decide),
   (store_entries_never_removed movedView bStore "/b.txt").2.2⟩

/-- C7: running `on_pre_close` twice on the same unchanged view yields the
same store as running it once. -/
theorem pre_close_idempotent (v : View) (s : Store) :
    (on_pre_close v (on_pre_close v s).2).2 = (on_pre_close v s).2 := by
  rcases pre_close_dichotomy v with h | ⟨fn, hfn, hne, h⟩
  · rw [h s]
    show (on_pre_close v s).2 = s
    rw [h s]
  · rw [h s]
    show (on_pre_close v
      (Store.insert s fn (ViewState.mk (freeze_sel v) v.viewport_position))).2
      = Store.insert s fn (ViewState.mk (freeze_sel v) v.viewport_position)
    rw [h _]
    exact insert_insert_same s fn _

/-- C8: freezing the regions produced by `unfreeze_sel` gives back the
original pair sequence, and both transforms preserve length and order. -/
theorem freeze_unfreeze_roundtrip (l : List (Int × Int)) (v : View) :
    (unfreeze_sel l).map (fun s => (s.a, s.b)) = l ∧
    freeze_sel { v with sel := unfreeze_sel l } = l ∧
    (unfreeze_sel l).length = l.length ∧
    (freeze_sel v).length = v.sel.length :=
  ⟨freeze_unfreeze l, freeze_unfreeze l, unfreeze_length l, freeze_length v⟩

/-- C9: `on_load_async` never writes the store: the stored entries,
including the one it may have just restored from, are left exactly as they
were. -/
theorem load_never_writes_store (v : View) (s : Store) :
    (on_load_async v s).2 = s :=
  on_load_async_store v s

/-- C10: running `on_load_async` twice in succession on the resulting
state is the same as running it once. -/
theorem load_idempotent (v : View) (s : Store) :
    on_load_async (on_load_async v s).1 (on_load_async v s).2
      = on_load_async v s := by
  rcases load_dichotomy v s with h | ⟨fn, st, hw, hsc, hvp, hsel, hfn, hne, hst, h⟩
  · rw [h]
    exact h
  · rw [h]
    show on_load_async
        { v with sel := unfreeze_sel st.sel, viewport_position := st.viewport } s
      = ({ v with sel := unfreeze_sel st.sel, viewport_position := st.viewport }, s)
    by_cases horigin : st.viewport ≠ ((0 : ℚ), (0 : ℚ))
        ∨ st.sel ≠ [((0 : Int), (0 : Int))]
    · apply load_skip_origin
      rcases horigin with h' | h'
      · exact Or.inl h'
      · refine Or.inr fun hc => h' ?_
        rw [← freeze_unfreeze st.sel]
        exact hc
    · push_neg at horigin
      obtain ⟨hvp', hsel'⟩ := horigin
      have hrun := load_run
        { v with sel := unfreeze_sel st.sel, viewport_position := st.viewport }
        s fn st hw hsc hvp' ((freeze_unfreeze st.sel).trans hsel') hfn hne hst
      rw [hrun]
